import Mathlib

/-!
Verification of the tiny-reservation repository's conflict-detection and
validation core against its natural-language specification.

The TypeScript sources are shallowly embedded:
* JavaScript numbers produced by `Number(...)` coercion are modelled as
  `Option Nat` (`none` stands for `NaN`); every relational operator on them
  follows the JS rule that any comparison with `NaN` is `false`.
* JavaScript strings are Lean `String`s; relational operators on strings
  follow the JS lexicographic code-unit order (all data here is ASCII, where
  code units and code points coincide).
* `localStorage` is made explicit: each store operation takes the stored
  reservation list and returns the (possibly unchanged) list alongside the
  operation's `Except` result, exactly mirroring which code paths call
  `saveReservations`.
* `Date` values held by app-level reservations are compared only through
  `toDateString()` in the embedded code, so they are modelled by their local
  civil calendar fields (year, month, day).
-/

/-- A decimal digit character, i.e. code point between '0' (48) and '9' (57). -/
def isDigitChar (c : Char) : Bool := 48 ≤ c.toNat && c.toNat ≤ 57

/-- Numeric value of a digit character. -/
def digitVal (c : Char) : Nat := c.toNat - 48

/-- Model of JavaScript `String.prototype.split(':')` on the character list of
a string: `""` splits to `[""]`, separators at the ends produce empty parts. -/
def splitColon : List Char → List (List Char)
  | [] => [[]]
  | c :: cs =>
    if c = ':' then [] :: splitColon cs
    else
      match splitColon cs with
      | [] => [[c]]
      | p :: ps => (c :: p) :: ps

/-- All characters of the list are decimal digits. -/
def allDigits (cs : List Char) : Bool := cs.all isDigitChar

/-- Decimal value of a digit list (most significant first). -/
def digitsToNat (cs : List Char) : Nat := cs.foldl (fun a c => 10 * a + digitVal c) 0

/-- Model of JavaScript `Number(...)` coercion on the string fragments this
program feeds it: the empty string coerces to `0`, a non-empty decimal digit
string to its value, and everything else to `NaN` (`none`).  Signs, decimals,
exponents and whitespace never occur in the repository's data and are mapped
to `NaN`. -/
def jsNumber (cs : List Char) : Option Nat :=
  if cs.isEmpty then some 0
  else if allDigits cs then some (digitsToNat cs) else none

/-- JS `<` on two `Number(...)` results: `false` whenever either is `NaN`. -/
def jsLtN (a b : Option Nat) : Bool :=
  match a, b with
  | some x, some y => decide (x < y)
  | _, _ => false

/-- JS `>=` on two `Number(...)` results: `false` whenever either is `NaN`. -/
def jsGeN (a b : Option Nat) : Bool :=
  match a, b with
  | some x, some y => decide (y ≤ x)
  | _, _ => false

/-- JS subtraction of two `Number(...)` results (`NaN`-propagating). -/
def jsSubN (a b : Option Nat) : Option Int :=
  match a, b with
  | some x, some y => some ((x : Int) - (y : Int))
  | _, _ => none

/-- JS `<` between a possibly-`NaN` number and an integer literal. -/
def jsLtI (a : Option Int) (k : Int) : Bool :=
  match a with
  | some x => decide (x < k)
  | none => false

/-- `timeToMinutes` from `src/utils/reservationUtils.ts`:
`const [hours, minutes] = timeString.split(':').map(Number); return hours * 60 + minutes;`.
When the split yields a single part, `minutes` is `undefined` and the result is
`NaN`; a `NaN` component also makes the result `NaN`; extra parts are ignored. -/
def timeToMinutes (s : String) : Option Nat :=
  match splitColon s.data with
  | [] => none
  | [_] => none
  | h :: m :: _ =>
    match jsNumber h, jsNumber m with
    | some hv, some mv => some (hv * 60 + mv)
    | _, _ => none

/-- `timeRangesOverlap` from `src/utils/reservationUtils.ts`:
`start1Minutes < end2Minutes && start2Minutes < end1Minutes`. -/
def timeRangesOverlap (start1 end1 start2 end2 : String) : Bool :=
  jsLtN (timeToMinutes start1) (timeToMinutes end2) &&
  jsLtN (timeToMinutes start2) (timeToMinutes end1)

/-- Result record of `validateReservationTime` (`{ isValid, error? }`). -/
structure ValidationResult where
  isValid : Bool
  error : Option String
deriving DecidableEq, Repr

/-- `validateReservationTime` from `src/utils/reservationUtils.ts`, with the
source's Korean error messages and JS comparison semantics. -/
def validateReservationTime (startTime endTime : String) : ValidationResult :=
  let startMinutes := timeToMinutes startTime
  let endMinutes := timeToMinutes endTime
  if jsGeN startMinutes endMinutes then
    ⟨false, some "종료 시간은 시작 시간보다 늦어야 합니다."⟩
  else if jsLtI (jsSubN endMinutes startMinutes) 30 then
    ⟨false, some "최소 30분 이상 예약해야 합니다."⟩
  else
    ⟨true, none⟩

/-- A well-formed, zero-padded, in-range "HH:MM" character list:
two digit characters with value below 24, a colon, and two digit characters
with minute value below 60. -/
def isTimeL (l : List Char) : Bool :=
  match l with
  | [h1, h2, c, m1, m2] =>
    c = ':' && isDigitChar h1 && isDigitChar h2 && isDigitChar m1 && isDigitChar m2 &&
      decide (10 * digitVal h1 + digitVal h2 < 24) && decide (digitVal m1 < 6)
  | _ => false

/-- Minutes-since-midnight value of a well-formed "HH:MM" character list. -/
def timeValL (l : List Char) : Nat :=
  match l with
  | [h1, h2, _, m1, m2] =>
    (10 * digitVal h1 + digitVal h2) * 60 + (10 * digitVal m1 + digitVal m2)
  | _ => 0

/-- A well-formed, zero-padded, in-range "HH:MM" time string. -/
def isTimeString (s : String) : Bool := isTimeL s.data

/-- Minutes-since-midnight value of a well-formed "HH:MM" time string. -/
def timeVal (s : String) : Nat := timeValL s.data

theorem isDigitChar_bounds {c : Char} (h : isDigitChar c = true) :
    48 ≤ c.toNat ∧ c.toNat ≤ 57 := by
  simpa [isDigitChar] using h

theorem digit_ne_colon {c : Char} (h : isDigitChar c = true) : c ≠ ':' := by
  intro he
  subst he
  exact absurd h (by decide)

theorem splitColon_no_colon {l : List Char} (h : ':' ∉ l) : splitColon l = [l] := by
  induction l with
  | nil => rfl
  | cons c cs ih =>
    have hc : ¬ c = ':' := fun hce => h (hce ▸ List.mem_cons_self c cs)
    have hcs : ':' ∉ cs := fun hm => h (List.mem_cons_of_mem c hm)
    simp [splitColon, hc, ih hcs]

theorem splitColon_append (l1 l2 : List Char) (h : ':' ∉ l1) :
    splitColon (l1 ++ ':' :: l2) = l1 :: splitColon l2 := by
  induction l1 with
  | nil => simp [splitColon]
  | cons c cs ih =>
    have hc : ¬ c = ':' := fun hce => h (hce ▸ List.mem_cons_self c cs)
    have hcs : ':' ∉ cs := fun hm => h (List.mem_cons_of_mem c hm)
    have hne : splitColon (cs ++ ':' :: l2) = cs :: splitColon l2 := ih hcs
    simp [splitColon, hc, hne]

theorem jsNumber_digits {l : List Char} (hne : l ≠ []) (hd : allDigits l = true) :
    jsNumber l = some (digitsToNat l) := by
  simp [jsNumber, List.isEmpty_iff, hne, hd]

/-- Destructuring a well-formed time list into its digits and their facts. -/
theorem isTimeL_shape {l : List Char} (h : isTimeL l = true) :
    ∃ h1 h2 m1 m2, l = [h1, h2, ':', m1, m2] ∧
      isDigitChar h1 = true ∧ isDigitChar h2 = true ∧
      isDigitChar m1 = true ∧ isDigitChar m2 = true ∧
      10 * digitVal h1 + digitVal h2 < 24 ∧ digitVal m1 < 6 := by
  match l, h with
  | [h1, h2, c, m1, m2], h =>
    simp only [isTimeL, Bool.and_eq_true, decide_eq_true_eq] at h
    obtain ⟨⟨⟨⟨⟨⟨hc, hd1⟩, hd2⟩, hd3⟩, hd4⟩, hr1⟩, hr2⟩ := h
    exact ⟨h1, h2, m1, m2, by rw [hc], hd1, hd2, hd3, hd4, hr1, hr2⟩

theorem digitsToNat_pair (c1 c2 : Char) :
    digitsToNat [c1, c2] = 10 * digitVal c1 + digitVal c2 := by
  simp [digitsToNat, List.foldl]

/-- On a well-formed "HH:MM" string `timeToMinutes` returns its minute value. -/
theorem timeToMinutes_wf {s : String} (h : isTimeString s = true) :
    timeToMinutes s = some (timeVal s) := by
  obtain ⟨h1, h2, m1, m2, hshape, hd1, hd2, hd3, hd4, _, _⟩ := isTimeL_shape h
  have hsplit : splitColon s.data = [[h1, h2], [m1, m2]] := by
    rw [hshape]
    have hno : ':' ∉ [h1, h2] := by
      intro hm
      rcases List.mem_pair.mp hm with h | h
      · exact digit_ne_colon hd1 h.symm
      · exact digit_ne_colon hd2 h.symm
    have := splitColon_append [h1, h2] [m1, m2] hno
    have hno2 : ':' ∉ [m1, m2] := by
      intro hm
      rcases List.mem_pair.mp hm with h | h
      · exact digit_ne_colon hd3 h.symm
      · exact digit_ne_colon hd4 h.symm
    simpa [splitColon_no_colon hno2] using this
  have hj1 : jsNumber [h1, h2] = some (10 * digitVal h1 + digitVal h2) := by
    rw [jsNumber_digits (by simp) (by simp [allDigits, hd1, hd2])]
    rw [digitsToNat_pair]
  have hj2 : jsNumber [m1, m2] = some (10 * digitVal m1 + digitVal m2) := by
    rw [jsNumber_digits (by simp) (by simp [allDigits, hd3, hd4])]
    rw [digitsToNat_pair]
  rw [hshape] at hsplit
  simp [timeToMinutes, hshape, hsplit, hj1, hj2, timeVal, timeValL]

/-- JS lexicographic string order (`<`) on character lists, by code unit:
the shorter string is smaller when one is a prefix of the other. -/
def lexLt : List Char → List Char → Bool
  | [], [] => false
  | [], _ :: _ => true
  | _ :: _, [] => false
  | a :: as, b :: bs =>
    if a.toNat < b.toNat then true
    else if b.toNat < a.toNat then false
    else lexLt as bs

/-- JS `<` on strings. -/
def strLtB (a b : String) : Bool := lexLt a.data b.data

/-- JS `>` on strings (`a > b` is `b < a`). -/
def strGtB (a b : String) : Bool := lexLt b.data a.data

/-- JS `>=` on strings (`a >= b` is `!(a < b)`; strings are never `NaN`). -/
def strGeB (a b : String) : Bool := !lexLt a.data b.data

/-- JS `<=` on strings (`a <= b` is `!(b < a)`). -/
def strLeB (a b : String) : Bool := !lexLt b.data a.data

theorem boolLexStep (x y : Nat) (r : Bool) :
    ((if x < y then true else if y < x then false else r) = true) ↔
      (x < y ∨ (x = y ∧ r = true)) := by
  split_ifs with h1 h2
  · simp [h1]
  · simp
    omega
  · have : x = y := by omega
    simp [this]

/-- For well-formed zero-padded in-range "HH:MM" lists, JS lexicographic order
coincides with the order of minutes-since-midnight values. -/
theorem lexLt_wf_iff {a b : List Char} (ha : isTimeL a = true) (hb : isTimeL b = true) :
    (lexLt a b = true ↔ timeValL a < timeValL b) := by
  obtain ⟨a1, a2, a3, a4, hae, had1, had2, had3, had4, har1, har2⟩ := isTimeL_shape ha
  obtain ⟨b1, b2, b3, b4, hbe, hbd1, hbd2, hbd3, hbd4, hbr1, hbr2⟩ := isTimeL_shape hb
  subst hae hbe
  obtain ⟨ha1l, ha1u⟩ := isDigitChar_bounds had1
  obtain ⟨ha2l, ha2u⟩ := isDigitChar_bounds had2
  obtain ⟨ha3l, ha3u⟩ := isDigitChar_bounds had3
  obtain ⟨ha4l, ha4u⟩ := isDigitChar_bounds had4
  obtain ⟨hb1l, hb1u⟩ := isDigitChar_bounds hbd1
  obtain ⟨hb2l, hb2u⟩ := isDigitChar_bounds hbd2
  obtain ⟨hb3l, hb3u⟩ := isDigitChar_bounds hbd3
  obtain ⟨hb4l, hb4u⟩ := isDigitChar_bounds hbd4
  simp only [digitVal] at har1 har2 hbr1 hbr2
  simp only [lexLt, timeValL, digitVal, boolLexStep, Bool.false_eq_true, and_false, or_false,
    true_and]
  omega

/-- `= false` version of `lexLt_wf_iff`. -/
theorem lexLt_wf_iff_false {a b : List Char} (ha : isTimeL a = true) (hb : isTimeL b = true) :
    (lexLt a b = false ↔ timeValL b ≤ timeValL a) := by
  rw [← Bool.not_eq_true, not_iff_comm, lexLt_wf_iff ha hb]
  omega

/-- A local civil calendar date (year, month 1..12, day 1..31).  `Date` objects
held by app-level reservations are only ever compared via `toDateString()`,
which two `Date`s share exactly when their local year, month and day agree, so
this is a faithful model of the embedded code's use of `Date`. -/
structure CivilDate where
  year : Int
  month : Nat
  day : Nat
deriving DecidableEq, Repr

/-- Stored reservation record (`ReservationAPI` in `src/utils/localStorageApi.ts`):
`date` is a "YYYY-MM-DD" string, `start_time`/`end_time` are "HH:MM" strings,
`created_at` is optional. -/
structure ReservationAPI where
  id : String
  type : String
  resource_id : String
  resource_name : String
  date : String
  start_time : String
  end_time : String
  reserved_by : String
  purpose : String
  created_at : Option String
deriving DecidableEq, Repr

/-- Input of `localReservationAPI.create` (`Omit<ReservationAPI, 'id' | 'created_at'>`). -/
structure NewReservation where
  type : String
  resource_id : String
  resource_name : String
  date : String
  start_time : String
  end_time : String
  reserved_by : String
  purpose : String
deriving DecidableEq, Repr

/-- The three-clause conflict test inlined in `localReservationAPI.create`,
comparing the raw "HH:MM" strings with JS relational operators:
`(s >= S && s < E) || (e > S && e <= E) || (s <= S && e >= E)`
for candidate `[s, e)` against existing `[S, E)`. -/
def createConflict (candStart candEnd exStart exEnd : String) : Bool :=
  (strGeB candStart exStart && strLtB candStart exEnd) ||
  (strGtB candEnd exStart && strLeB candEnd exEnd) ||
  (strLeB candStart exStart && strGeB candEnd exEnd)

/-- Gregorian leap year (`new Date` calendar arithmetic). -/
def isLeapYear (y : Int) : Bool :=
  (y % 4 == 0 && y % 100 != 0) || y % 400 == 0

/-- Days in a Gregorian month. -/
def daysInMonth (y : Int) (m : Nat) : Nat :=
  if m = 2 then (if isLeapYear y then 29 else 28)
  else if m = 4 ∨ m = 6 ∨ m = 9 ∨ m = 11 then 30
  else 31

/-- The civil day before the given one. -/
def prevDay : CivilDate → CivilDate
  | ⟨y, m, d⟩ =>
    if 1 < d then ⟨y, m, d - 1⟩
    else if 1 < m then ⟨y, m - 1, daysInMonth y (m - 1)⟩
    else ⟨y - 1, 12, 31⟩

/-- Strict parse of a "YYYY-MM-DD" date string into its calendar fields,
validating the ranges the way `new Date(...)` does for this format (month
1..12, day within the month); anything else is an invalid date (`none`).
This models the JS date-only ISO form, the only format this repository stores. -/
def parseISODate (s : String) : Option CivilDate :=
  match s.data with
  | [y1, y2, y3, y4, '-', m1, m2, '-', d1, d2] =>
    if isDigitChar y1 && isDigitChar y2 && isDigitChar y3 && isDigitChar y4 &&
        isDigitChar m1 && isDigitChar m2 && isDigitChar d1 && isDigitChar d2 then
      let y : Int := ((digitVal y1 * 1000 + digitVal y2 * 100 + digitVal y3 * 10 + digitVal y4 : Nat) : Int)
      let m := 10 * digitVal m1 + digitVal m2
      let d := 10 * digitVal d1 + digitVal d2
      if 1 ≤ m && m ≤ 12 && 1 ≤ d && d ≤ daysInMonth y m then some ⟨y, m, d⟩ else none
    else none
  | _ => none

/-- Local calendar fields (`getFullYear`/`getMonth`/`getDate`) of the instant
"midnight UTC of day `d`" — which is what `new Date("YYYY-MM-DD")` denotes —
in a timezone `tzOffsetMin` minutes ahead of UTC (the negation of JS
`getTimezoneOffset()`; real offsets satisfy `-1440 < tzOffsetMin < 1440`).
A non-negative offset keeps the same civil day; a negative offset lands in the
previous civil day. -/
def localFieldsOfUTCMidnight (tzOffsetMin : Int) (d : CivilDate) : CivilDate :=
  if 0 ≤ tzOffsetMin then d else prevDay d

namespace localReservationAPI

/-- `localReservationAPI.fetchByMonth` from `src/utils/localStorageApi.ts`:
filters the stored reservations by
`new Date(reservation.date).getFullYear() === year && getMonth() + 1 === month`.
The ambient timezone offset (minutes ahead of UTC) is made explicit; a
reservation whose date string does not parse as a date contributes `NaN`
fields and is filtered out. -/
def fetchByMonth (tzOffsetMin : Int) (store : List ReservationAPI) (year month : Int) :
    List ReservationAPI :=
  store.filter fun r =>
    match parseISODate r.date with
    | none => false
    | some d =>
      let localDate := localFieldsOfUTCMidnight tzOffsetMin d
      decide (localDate.year = year) && decide ((localDate.month : Int) = month)

/-- `localReservationAPI.create` from `src/utils/localStorageApi.ts`: reads the
store, throws `'Reservation conflict detected'` when some existing reservation
has the same `resource_id`, the same `date` string and a string-compared time
clash, and otherwise appends the new record and saves.  The generated `id` and
`created_at` timestamp are nondeterministic in the source
(`Date.now`/`Math.random`/`toISOString`), so they are taken as parameters. -/
def create (store : List ReservationAPI) (reservation : NewReservation)
    (newId createdAt : String) : Except String ReservationAPI × List ReservationAPI :=
  let hasConflict := store.any fun existing =>
    existing.resource_id == reservation.resource_id &&
    existing.date == reservation.date &&
    createConflict reservation.start_time reservation.end_time
      existing.start_time existing.end_time
  if hasConflict then
    (.error "Reservation conflict detected", store)
  else
    let newReservation : ReservationAPI :=
      ⟨newId, reservation.type, reservation.resource_id, reservation.resource_name,
        reservation.date, reservation.start_time, reservation.end_time,
        reservation.reserved_by, reservation.purpose, some createdAt⟩
    (.ok newReservation, store ++ [newReservation])

/-- `localReservationAPI.delete` from `src/utils/localStorageApi.ts`: filters
out the reservation with the given id, throws `'Reservation not found'` when
nothing was removed (before any save), else saves the filtered list. -/
def delete (store : List ReservationAPI) (id : String) :
    Except String Unit × List ReservationAPI :=
  let filtered := store.filter fun r => !(r.id == id)
  if filtered.length == store.length then
    (.error "Reservation not found", store)
  else
    (.ok (), filtered)

end localReservationAPI

/-- App-level reservation entity (interface `Reservation` in `App.tsx`, spec §3):
the fields the embedded utilities read.  `date` is a `Date` compared only via
`toDateString()`, hence modelled by its local civil calendar fields. -/
structure Reservation where
  id : String
  resourceId : String
  date : CivilDate
  startTime : String
  endTime : String
  reservedBy : String
  purpose : String
deriving DecidableEq, Repr

/-- Candidate argument of `checkReservationConflict`
(`{resourceId, date, startTime, endTime}`). -/
structure Candidate where
  resourceId : String
  date : CivilDate
  startTime : String
  endTime : String
deriving DecidableEq, Repr

/-- Result record of `checkReservationConflict`
(`{ hasConflict, conflictingReservation? }`). -/
structure ConflictResult where
  hasConflict : Bool
  conflictingReservation : Option Reservation
deriving DecidableEq, Repr

/-- The `excludeId && reservation.id === excludeId` guard of
`checkReservationConflict`: JS truthiness makes `undefined` and the empty
string skip the exclusion. -/
def excludedBy (excludeId : Option String) (rid : String) : Bool :=
  match excludeId with
  | none => false
  | some e => !(e == "") && rid == e

/-- `checkReservationConflict` from `src/utils/reservationUtils.ts`: filter the
existing reservations to the candidate's resource and calendar day (skipping a
truthy `excludeId` match), then return the first filtered reservation whose
time range overlaps the candidate's (the `for` loop returns at the first hit). -/
def checkReservationConflict (newReservation : Candidate)
    (existingReservations : List Reservation) (excludeId : Option String) :
    ConflictResult :=
  let conflictingReservations := existingReservations.filter fun reservation =>
    if excludedBy excludeId reservation.id then false
    else
      reservation.resourceId == newReservation.resourceId &&
      reservation.date == newReservation.date
  match conflictingReservations.find? (fun reservation =>
      timeRangesOverlap newReservation.startTime newReservation.endTime
        reservation.startTime reservation.endTime) with
  | some reservation => ⟨true, some reservation⟩
  | none => ⟨false, none⟩

/-- JS `String.prototype.padStart(2, '0')`. -/
def padStart2 (s : String) : String :=
  if s.length < 2 then String.mk (List.replicate (2 - s.length) '0' ++ s.data) else s

/-- The inner `minute` loop of `getAvailableTimeSlots`, for one value of `hour`:
`for (let minute = 0; minute < 60; minute += slotDuration)`, with the
`if (endHour >= 22) break;` exit.  The loop runs at most 60 iterations when
`slotDuration ≥ 1`, so fuel 60 is exact; the source never terminates when
`slotDuration ≤ 0`. -/
def slotMinuteLoop (dayReservations : List Reservation) (hour slotDuration : Nat) :
    Nat → Nat → List String
  | 0, _ => []
  | fuel + 1, minute =>
    if minute < 60 then
      let startTime := padStart2 (toString hour) ++ ":" ++ padStart2 (toString minute)
      let endMinutes := hour * 60 + minute + slotDuration
      let endHour2 := endMinutes / 60
      let endMinute := endMinutes % 60
      let endTime := padStart2 (toString endHour2) ++ ":" ++ padStart2 (toString endMinute)
      if 22 ≤ endHour2 then []
      else
        let hasConflict := dayReservations.any fun reservation =>
          timeRangesOverlap startTime endTime reservation.startTime reservation.endTime
        (if hasConflict then [] else [startTime]) ++
          slotMinuteLoop dayReservations hour slotDuration fuel (minute + slotDuration)
    else []

/-- `getAvailableTimeSlots` from `src/utils/reservationUtils.ts`: filter to the
resource and day, then scan hours 6..21, each with the minute loop above. -/
def getAvailableTimeSlots (resourceId : String) (date : CivilDate)
    (existingReservations : List Reservation) (slotDuration : Nat) : List String :=
  let dayReservations := existingReservations.filter fun reservation =>
    reservation.resourceId == resourceId && reservation.date == date
  (List.range' 6 16).foldl
    (fun acc hour => acc ++ slotMinuteLoop dayReservations hour slotDuration 60 0) []

theorem strLtB_wf {a b : String} (ha : isTimeString a = true) (hb : isTimeString b = true) :
    strLtB a b = decide (timeVal a < timeVal b) := by
  by_cases hv : timeVal a < timeVal b
  · simp [strLtB, (lexLt_wf_iff ha hb).mpr hv, hv]
  · have hf : lexLt a.data b.data = false := by
      rw [← Bool.not_eq_true]
      exact fun ht => hv ((lexLt_wf_iff ha hb).mp ht)
    simp [strLtB, hf, hv]

theorem strGeB_wf {a b : String} (ha : isTimeString a = true) (hb : isTimeString b = true) :
    strGeB a b = decide (timeVal b ≤ timeVal a) := by
  by_cases hv : timeVal b ≤ timeVal a
  · have hf : lexLt a.data b.data = false := (lexLt_wf_iff_false ha hb).mpr hv
    simp [strGeB, hf, hv]
  · have ht : lexLt a.data b.data = true :=
      (lexLt_wf_iff ha hb).mpr (by simp only [timeVal] at hv; omega)
    simp [strGeB, ht, hv]

theorem strGtB_wf {a b : String} (ha : isTimeString a = true) (hb : isTimeString b = true) :
    strGtB a b = decide (timeVal b < timeVal a) := strLtB_wf hb ha

theorem strLeB_wf {a b : String} (ha : isTimeString a = true) (hb : isTimeString b = true) :
    strLeB a b = decide (timeVal a ≤ timeVal b) := strGeB_wf hb ha

theorem timeRangesOverlap_wf {s1 e1 s2 e2 : String} (h1 : isTimeString s1 = true)
    (h2 : isTimeString e1 = true) (h3 : isTimeString s2 = true)
    (h4 : isTimeString e2 = true) :
    timeRangesOverlap s1 e1 s2 e2 =
      (decide (timeVal s1 < timeVal e2) && decide (timeVal s2 < timeVal e1)) := by
  rw [timeRangesOverlap, timeToMinutes_wf h1, timeToMinutes_wf h2, timeToMinutes_wf h3,
    timeToMinutes_wf h4]
  rfl

/-- C2: for well-formed zero-padded "HH:MM" strings with in-range components,
`timeRangesOverlap(start1, end1, start2, end2)` is true exactly when
`timeToMinutes start1 < timeToMinutes end2` and
`timeToMinutes start2 < timeToMinutes end1` (half-open interval semantics, so
intervals that merely touch at an endpoint do not overlap). -/
theorem C2_timeRangesOverlap_halfOpen (start1 end1 start2 end2 : String)
    (h1 : isTimeString start1 = true) (h2 : isTimeString end1 = true)
    (h3 : isTimeString start2 = true) (h4 : isTimeString end2 = true) :
    timeRangesOverlap start1 end1 start2 end2 = true ↔
      (timeVal start1 < timeVal end2 ∧ timeVal start2 < timeVal end1) := by
  rw [timeRangesOverlap_wf h1 h2 h3 h4]
  simp

/-- C2 witness: the theorem applied at "09:00"–"10:00" versus "10:00"–"11:00",
which touch at 10:00 and therefore do not overlap. -/
theorem C2_witness :
    isTimeString "09:00" = true ∧
      ¬ timeRangesOverlap "09:00" "10:00" "10:00" "11:00" = true :=
  ⟨by decide, fun hov => by
    have h := (C2_timeRangesOverlap_halfOpen "09:00" "10:00" "10:00" "11:00"
      (by decide) (by decide) (by decide) (by decide)).mp hov
    exact absurd h.2 (by decide)⟩

/-- C5: for well-formed "HH:MM" inputs, `validateReservationTime` reports the
ordering error exactly when `startTime >= endTime`, otherwise the
minimum-duration error exactly when the duration is under 30 minutes, and
otherwise succeeds. -/
theorem C5_validateReservationTime_spec (startTime endTime : String)
    (hs : isTimeString startTime = true) (he : isTimeString endTime = true) :
    validateReservationTime startTime endTime =
      if timeVal endTime ≤ timeVal startTime then
        ⟨false, some "종료 시간은 시작 시간보다 늦어야 합니다."⟩
      else if timeVal endTime - timeVal startTime < 30 then
        ⟨false, some "최소 30분 이상 예약해야 합니다."⟩
      else
        ⟨true, none⟩ := by
  rw [validateReservationTime]
  rw [timeToMinutes_wf hs, timeToMinutes_wf he]
  simp only [jsGeN, jsSubN, jsLtI]
  split_ifs with h1 h2 h3 h4 h5 <;> first
    | rfl
    | (exfalso; simp only [decide_eq_true_eq] at *; omega)

/-- C5 witness: the theorem applied at a 20-minute reservation, rejected with
the minimum-duration error. -/
theorem C5_witness :
    validateReservationTime "10:00" "10:20" =
      ⟨false, some "최소 30분 이상 예약해야 합니다."⟩ := by
  rw [C5_validateReservationTime_spec "10:00" "10:20" (by decide) (by decide)]
  decide

theorem allDigits_no_colon {l : List Char} (h : allDigits l = true) : ':' ∉ l := by
  intro hm
  have hd : isDigitChar ':' = true := by
    have := List.all_eq_true.mp h
    exact this _ hm
  exact absurd hd (by decide)

/-- C8: `timeToMinutes` does not fail on malformed input: an out-of-range
"HH:MM" such as "25:99" yields the plain number 25*60+99 = 1599, while
non-numeric or missing components yield `NaN` (`none`) — no error is raised in
any case. -/
theorem C8_counterexample :
    timeToMinutes "25:99" = some 1599 ∧
      timeToMinutes "ab:cd" = none ∧
      timeToMinutes "10" = none ∧
      timeToMinutes "10:" = some 600 := by
  refine ⟨rfl, rfl, rfl, rfl⟩

/-- C8 (amended): `timeToMinutes` silently coerces instead of failing — for any
two colon-free decimal digit components, in range or not, it returns
`hours * 60 + minutes`; other malformed components become `NaN` (`none`)
rather than an error. -/
theorem C8_timeToMinutes_silent_coercion (l1 l2 : List Char) (h1 : l1 ≠ [])
    (h2 : l2 ≠ []) (d1 : allDigits l1 = true) (d2 : allDigits l2 = true) :
    timeToMinutes (String.mk (l1 ++ ':' :: l2)) =
      some (digitsToNat l1 * 60 + digitsToNat l2) := by
  have hdata : (String.mk (l1 ++ ':' :: l2)).data = l1 ++ ':' :: l2 := rfl
  rw [timeToMinutes, hdata, splitColon_append l1 l2 (allDigits_no_colon d1),
    splitColon_no_colon (allDigits_no_colon d2)]
  simp [jsNumber_digits h1 d1, jsNumber_digits h2 d2]

/-- C8 witness: the amended theorem applied to the out-of-range digits of
"25:99". -/
theorem C8_witness :
    timeToMinutes (String.mk (['2', '5'] ++ ':' :: ['9', '9'])) = some 1599 :=
  (C8_timeToMinutes_silent_coercion ['2', '5'] ['9', '9'] (by decide) (by decide)
    (by decide) (by decide)).trans (by decide)

/-- C9: the three-clause string predicate of `localReservationAPI.create` and
`timeRangesOverlap` disagree on the well-formed zero-padded times of a
degenerate candidate interval: for candidate [00:00, 00:00) against existing
[00:00, 05:00) the clauses report a clash while the half-open overlap law does
not. -/
theorem C9_counterexample :
    createConflict "00:00" "00:00" "00:00" "05:00" = true ∧
      timeRangesOverlap "00:00" "00:00" "00:00" "05:00" = false ∧
      isTimeString "00:00" = true ∧ isTimeString "05:00" = true := by
  refine ⟨rfl, rfl, by decide, by decide⟩

/-- C9 (amended): on well-formed zero-padded "HH:MM" times that denote proper
intervals (start strictly before end, on both the candidate and the existing
side), the three-clause lexicographic string predicate of
`localReservationAPI.create` decides exactly the half-open overlap law
`timeRangesOverlap`. -/
theorem C9_createConflict_eq_overlap (s e S E : String)
    (hs : isTimeString s = true) (he : isTimeString e = true)
    (hS : isTimeString S = true) (hE : isTimeString E = true)
    (hcand : timeVal s < timeVal e) (hex : timeVal S < timeVal E) :
    createConflict s e S E = timeRangesOverlap s e S E := by
  rw [createConflict, strGeB_wf hs hS, strLtB_wf hs hE, strGtB_wf he hS,
    strLeB_wf he hE, strLeB_wf hs hS, strGeB_wf he hE,
    timeRangesOverlap_wf hs he hS hE]
  rw [Bool.eq_iff_iff]
  simp only [Bool.or_eq_true, Bool.and_eq_true, decide_eq_true_eq]
  omega

/-- C9 witness: the amended theorem applied to two genuinely overlapping
proper intervals. -/
theorem C9_witness :
    createConflict "09:00" "10:30" "10:00" "11:00" =
      timeRangesOverlap "09:00" "10:30" "10:00" "11:00" :=
  C9_createConflict_eq_overlap "09:00" "10:30" "10:00" "11:00"
    (by decide) (by decide) (by decide) (by decide) (by decide) (by decide)

theorem if_then_false (b c : Bool) : (if b = true then false else c) = (!b && c) := by
  cases b <;> simp

theorem find_filter {α : Type} (l : List α) (p q : α → Bool) :
    (l.filter q).find? p = l.find? fun a => q a && p a := by
  induction l with
  | nil => rfl
  | cons x xs ih =>
    by_cases hq : q x = true
    · by_cases hp : p x = true
      · simp [List.filter_cons, List.find?_cons, hq, hp]
      · simp only [Bool.not_eq_true] at hp
        simp [List.filter_cons, List.find?_cons, hq, hp, ih]
    · simp only [Bool.not_eq_true] at hq
      simp [List.filter_cons, List.find?_cons, hq, ih]

/-- The claim's qualifying condition for C4, following the claim's words:
same resource, same calendar day, id different from `excludeId`, and time
ranges overlapping under the half-open law. -/
def claimQualifies (c : Candidate) (excludeId : Option String) (r : Reservation) : Bool :=
  r.resourceId == c.resourceId && r.date == c.date && !(some r.id == excludeId) &&
    timeRangesOverlap c.startTime c.endTime r.startTime r.endTime

/-- The code's qualifying condition in `checkReservationConflict`: the
`excludeId` guard uses JS truthiness, so an empty-string `excludeId` excludes
nothing. -/
def codeQualifies (c : Candidate) (excludeId : Option String) (r : Reservation) : Bool :=
  (!excludedBy excludeId r.id && (r.resourceId == c.resourceId && r.date == c.date)) &&
    timeRangesOverlap c.startTime c.endTime r.startTime r.endTime

def candC4 : Candidate := ⟨"space-a", ⟨2024, 1, 15⟩, "10:00", "11:00"⟩

def resC4 : Reservation := ⟨"", "space-a", ⟨2024, 1, 15⟩, "10:00", "11:00", "kim", "meeting"⟩

/-- C4: with `excludeId` the empty string, a stored reservation whose id equals
`excludeId` is still reported as a conflict (JS truthiness skips the
exclusion), although by the claim's words no qualifying reservation exists. -/
theorem C4_counterexample :
    (checkReservationConflict candC4 [resC4] (some "")).hasConflict = true ∧
      [resC4].find? (claimQualifies candC4 (some "")) = none := by
  refine ⟨rfl, rfl⟩

/-- C4 (amended): `checkReservationConflict` returns the first reservation in
input order with the candidate's resource and calendar day, not excluded by a
truthy `excludeId` (an empty-string or absent `excludeId` excludes nothing),
and overlapping under the half-open law; it reports no conflict exactly when
no such reservation exists. -/
theorem C4_checkReservationConflict_find (c : Candidate) (l : List Reservation)
    (excludeId : Option String) :
    checkReservationConflict c l excludeId =
      match l.find? (codeQualifies c excludeId) with
      | some r => ⟨true, some r⟩
      | none => ⟨false, none⟩ := by
  rw [checkReservationConflict]
  have hpred : (fun reservation : Reservation =>
      if excludedBy excludeId reservation.id then false
      else reservation.resourceId == c.resourceId && reservation.date == c.date) =
      fun reservation : Reservation => !excludedBy excludeId reservation.id &&
        (reservation.resourceId == c.resourceId && reservation.date == c.date) := by
    funext reservation
    exact if_then_false _ _
  rw [hpred, find_filter]
  rfl

def candC3 : NewReservation :=
  ⟨"vehicle", "vehicle-1", "라떼 20노1803", "2024-03-01", "10:00", "10:00", "kim", "errand"⟩

def nrC3 : ReservationAPI :=
  ⟨"id1", "vehicle", "vehicle-1", "라떼 20노1803", "2024-03-01", "10:00", "10:00", "kim",
    "errand", some "t1"⟩

/-- C3: a candidate with `startTime = endTime` (which the validator rejects)
is accepted and persisted by `localReservationAPI.create` on an empty store:
the store's create performs no time validation at all. -/
theorem C3_counterexample :
    (validateReservationTime "10:00" "10:00").isValid = false ∧
      localReservationAPI.create [] candC3 "id1" "t1" = (.ok nrC3, [nrC3]) := by
  refine ⟨rfl, rfl⟩

/-- C3 (amended): `localReservationAPI.create` performs no time validation —
for every store and candidate it either fails with the conflict error and
leaves the store as is, or appends and persists the candidate, regardless of
whether the candidate's times are ordered or 30 minutes long. -/
theorem C3_create_never_validates (store : List ReservationAPI)
    (res : NewReservation) (newId createdAt : String) :
    localReservationAPI.create store res newId createdAt =
        (.error "Reservation conflict detected", store) ∨
      ∃ nr : ReservationAPI,
        localReservationAPI.create store res newId createdAt = (.ok nr, store ++ [nr]) := by
  rw [localReservationAPI.create]
  split_ifs with h
  · exact Or.inl rfl
  · exact Or.inr ⟨_, rfl⟩

/-- C10: whenever `localReservationAPI.create` fails (its only failure is the
conflict error) or `localReservationAPI.delete` fails (its only failure is the
not-found error), the stored reservation list is returned unchanged: both
error paths throw before any call to `saveReservations`. -/
theorem C10_failed_ops_preserve_store :
    (∀ (store : List ReservationAPI) (res : NewReservation) (newId createdAt e : String),
        (localReservationAPI.create store res newId createdAt).1 = .error e →
        (localReservationAPI.create store res newId createdAt).2 = store) ∧
      ∀ (store : List ReservationAPI) (id e : String),
        (localReservationAPI.delete store id).1 = .error e →
        (localReservationAPI.delete store id).2 = store := by
  constructor
  · intro store res newId createdAt e herr
    rw [localReservationAPI.create] at herr ⊢
    split_ifs with h
    · rfl
    · rw [if_neg h] at herr
      exact absurd herr (by simp)
  · intro store id e herr
    rw [localReservationAPI.delete] at herr ⊢
    split_ifs with h
    · rfl
    · rw [if_neg h] at herr
      exact absurd herr (by simp)

def rC10 : ReservationAPI :=
  ⟨"rid1", "vehicle", "vehicle-1", "라떼 20노1803", "2024-03-01", "10:00", "11:00", "kim",
    "errand", none⟩

def candC10 : NewReservation :=
  ⟨"vehicle", "vehicle-1", "라떼 20노1803", "2024-03-01", "10:30", "11:30", "lee", "trip"⟩

/-- C10 witness: a conflicting create and a missing-id delete, both leaving the
store untouched. -/
theorem C10_witness :
    (localReservationAPI.create [rC10] candC10 "i2" "t2").2 = [rC10] ∧
      (localReservationAPI.delete [rC10] "absent-id").2 = [rC10] :=
  ⟨C10_failed_ops_preserve_store.1 [rC10] candC10 "i2" "t2"
      "Reservation conflict detected" rfl,
    C10_failed_ops_preserve_store.2 [rC10] "absent-id" "Reservation not found" rfl⟩

/-- The no-overlap invariant of spec §3 on a stored reservation list: no two
reservations with the same `resource_id` and the same `date` string have
overlapping half-open time ranges (`timeRangesOverlap` is symmetric, so the
ordered `Pairwise` form covers every unordered pair). -/
def noOverlapInv (l : List ReservationAPI) : Prop :=
  l.Pairwise fun a b => a.resource_id = b.resource_id → a.date = b.date →
    timeRangesOverlap a.start_time a.end_time b.start_time b.end_time = false

/-- C1: a successful `localReservationAPI.create` on a store of well-formed
reservations satisfying the no-overlap invariant yields the old store with the
new record appended, still satisfying the no-overlap invariant. -/
theorem C1_create_preserves_noOverlap (store : List ReservationAPI)
    (res : NewReservation) (newId createdAt : String) (nr : ReservationAPI)
    (store' : List ReservationAPI)
    (hwf : ∀ r ∈ store, isTimeString r.start_time = true ∧ isTimeString r.end_time = true)
    (hwfs : isTimeString res.start_time = true)
    (hwfe : isTimeString res.end_time = true)
    (hinv : noOverlapInv store)
    (hok : localReservationAPI.create store res newId createdAt = (.ok nr, store')) :
    store' = store ++ [nr] ∧ noOverlapInv store' := by
  rw [localReservationAPI.create] at hok
  split_ifs at hok with hc
  · exact absurd hok (by simp)
  · simp only [Prod.mk.injEq, Except.ok.injEq] at hok
    obtain ⟨hnr, hst⟩ := hok
    subst hnr
    subst hst
    refine ⟨rfl, ?_⟩
    rw [noOverlapInv, List.pairwise_append]
    refine ⟨hinv, List.pairwise_singleton _ _, ?_⟩
    intro a ha b hb
    have hb' : b = ⟨newId, res.type, res.resource_id, res.resource_name, res.date,
        res.start_time, res.end_time, res.reserved_by, res.purpose, some createdAt⟩ := by
      simpa using hb
    subst hb'
    intro hres hdate
    have hcf : createConflict res.start_time res.end_time a.start_time a.end_time = false := by
      by_contra hz
      rw [Bool.not_eq_false] at hz
      refine hc (List.any_eq_true.mpr ⟨a, ha, ?_⟩)
      simp only [Bool.and_eq_true, beq_iff_eq]
      exact ⟨⟨hres, hdate⟩, hz⟩
    obtain ⟨ha1, ha2⟩ := hwf a ha
    rw [createConflict, strGeB_wf hwfs ha1, strLtB_wf hwfs ha2, strGtB_wf hwfe ha1,
      strLeB_wf hwfe ha2, strLeB_wf hwfs ha1, strGeB_wf hwfe ha2] at hcf
    rw [timeRangesOverlap_wf ha1 ha2 hwfs hwfe]
    simp only [Bool.or_eq_false_iff, Bool.and_eq_false_iff, decide_eq_false_iff_not] at hcf
    simp only [Bool.and_eq_false_iff, decide_eq_false_iff_not]
    omega

def rC1 : ReservationAPI :=
  ⟨"r1", "vehicle", "vehicle-2", "핑크 128무6370", "2024-03-02", "09:00", "10:00", "kim",
    "drive", none⟩

def candC1 : NewReservation :=
  ⟨"vehicle", "vehicle-2", "핑크 128무6370", "2024-03-02", "10:00", "11:00", "lee", "errand"⟩

def nrC1 : ReservationAPI :=
  ⟨"id9", "vehicle", "vehicle-2", "핑크 128무6370", "2024-03-02", "10:00", "11:00", "lee",
    "errand", some "ts9"⟩

/-- C1 witness: creating a reservation that touches an existing one exactly at
10:00 succeeds and preserves the no-overlap invariant. -/
theorem C1_witness : [rC1, nrC1] = [rC1] ++ [nrC1] ∧ noOverlapInv [rC1, nrC1] :=
  C1_create_preserves_noOverlap [rC1] candC1 "id9" "ts9" nrC1 [rC1, nrC1]
    (by decide) (by decide) (by decide)
    (by rw [noOverlapInv]; exact List.pairwise_singleton _ _) rfl

/-- C6: with no reservations at all and the default 60-minute slots, the slot
generator stops at `endHour >= 22` and so omits the 21:00 slot, whose end time
is exactly the 22:00 close of the 06:00–22:00 operating window. -/
theorem C6_slots_drop_2200_end :
    getAvailableTimeSlots "vehicle-1" ⟨2024, 3, 1⟩ [] 60 =
        ["06:00", "07:00", "08:00", "09:00", "10:00", "11:00", "12:00", "13:00",
          "14:00", "15:00", "16:00", "17:00", "18:00", "19:00", "20:00"] ∧
      "21:00" ∉ getAvailableTimeSlots "vehicle-1" ⟨2024, 3, 1⟩ [] 60 := by
  refine ⟨rfl, ?_⟩
  decide

def rC7 : ReservationAPI :=
  ⟨"r7", "vehicle", "vehicle-3", "흰둥이 221무7249", "2024-03-01", "10:00", "11:00", "kim",
    "errand", none⟩

/-- C7: `localReservationAPI.fetchByMonth` reads the month of a stored
"YYYY-MM-DD" date through `new Date(...)` — a UTC-normalizing instant — so a
March 1st reservation is returned for March in UTC but silently dropped in a
timezone 300 minutes behind UTC, where the instant's local calendar fields are
February 29th. -/
theorem C7_fetchByMonth_tz_dependent :
    localReservationAPI.fetchByMonth 0 [rC7] 2024 3 = [rC7] ∧
      localReservationAPI.fetchByMonth (-300) [rC7] 2024 3 = [] := by
  refine ⟨rfl, rfl⟩
